import Mathlib

/-!
Verification development for the buffer-level cost model of `src/model/buffer.cpp`
(class `model::BufferLevel`).  The C++ code is shallowly embedded: `double`
arithmetic is modelled exactly by `ℚ`, machine integers by `ℕ` (with an explicit
wrap-around model where a `uint64_t` subtraction may underflow), and the external
collaborators (density model, physical-analytics energy model, networks, workload
shape) are abstracted as record-of-functions parameters, exactly as the code
consumes them through virtual interfaces.
-/

set_option maxHeartbeats 1000000

set_option maxRecDepth 4000

/-- Ceiling of a rational, converted to `ℕ` as the C++ code converts the result of
`std::ceil` on a non-negative `double` to an unsigned integer. -/
def natCeil (q : ℚ) : ℕ := (Int.ceil q).toNat

/-- Truncation (floor for non-negative values) of a rational, as in an implicit
`double` → unsigned integer conversion in C++. -/
def natFloor (q : ℚ) : ℕ := (Int.floor q).toNat

/-- Models `uint64_t` subtraction `a - b`: equals `a - b` normally and wraps
modulo `2^64` on underflow (for operands `< 2^64`). -/
def u64sub (a b : ℕ) : ℕ := if b ≤ a then a - b else a + 2 ^ 64 - b

/-- The probabilistic tile-density collaborator (class `DataDensity`), which
`buffer.cpp` consumes through `GetTileExpectedDensity`, `GetTileConfidence`,
`GetTileDensityByConfidence` (with and without an explicit buffer-capacity
argument) and the `user_defined_knob` / `GetUserDefinedConfidence` pair.  It is
external to `buffer.cpp`, so it is kept fully abstract. -/
structure DensityModel where
  user_defined_knob : Bool
  userDefinedConfidence : ℚ
  tileExpectedDensity : ℕ → ℚ
  tileConfidence : ℕ → ℕ → ℚ
  tileDensityByConfidence : ℕ → ℚ → ℚ
  tileDensityByConfidenceCap : ℕ → ℚ → ℕ → ℚ

/-- Per-tensor tile descriptor `tiling::DataMovementInfo` (the fields that
`BufferLevel` reads). `fine_grained_accesses`, `parent_level_op_energy` and
`parent_level_simple_specs` are the string-keyed maps of the original code. -/
structure DataMovementInfo where
  size : ℕ
  partition_size : ℕ
  content_accesses : ℕ
  compressed : Bool
  metadata_format : String
  dense_rank0_fills : ℕ
  dense_rank1_fills : ℕ
  tile_density : DensityModel
  replication_factor : ℕ
  reads : ℕ
  updates : ℕ
  fills : ℕ
  temporal_reductions : ℕ
  metadata_reads : ℕ
  metadata_fills : ℕ
  metadata_updates : ℕ
  fine_grained_accesses : String → ℕ
  parent_level : Option ℕ
  parent_level_name : String
  parent_level_op_energy : String → ℚ
  parent_level_simple_specs : String → ℚ
  subnest : List ℕ

/-- Architecture specification of one storage level (`BufferLevel::Specs`), as
populated by `ParseSpecs`/`ValidateTopology`.  `size = none` models an
unspecified (effectively infinite) capacity; `instances` is always specified
after `ValidateTopology`. -/
structure Specs where
  size : Option ℕ
  multiple_buffering : ℚ
  min_utilization : ℚ
  word_bits : ℕ
  block_size : ℕ
  metadata_word_bits : ℕ
  metadata_block_size : ℕ
  cluster_size : ℕ
  instances : ℕ
  read_bandwidth : Option ℚ
  write_bandwidth : Option ℚ
  addr_gen_energy : ℚ
  op_energy_map : String → ℚ

/-- The derived `specs.effective_size` (ParseSpecs lines 239-243):
`floor(size / multiple_buffering)`, specified iff `size` is. -/
def effectiveSize (s : Specs) : Option ℕ :=
  s.size.map fun sz => natFloor ((sz : ℚ) / s.multiple_buffering)

/-- External collaborators referenced by the level: the read network's
distributed-multicast capability, the update network's word width, and the
physical-analytics adder-energy model `pat::AdderEnergy`. -/
structure Collab where
  multicastReadSupported : Bool
  updateNetworkWordBits : ℕ
  adderEnergy : ℕ → ℕ → ℚ

/-- Workload shape collaborator: which dataspaces are read-write
(`problem::GetShape()->IsReadWriteDataSpace`). -/
structure Workload where
  isReadWrite : ℕ → Bool

/-- Mapping-infeasibility reasons appended to the `fail_reason` stream of
`EvalStatus` (the original code builds a human-readable string; we record the
structured tags in the order they are appended). -/
inductive FailReason where
  | capacityExceeded
  | minUtilization
  | instancesExceeded
deriving DecidableEq, Repr

/-- The `EvalStatus` result of `PreEvaluationCheck` / `Evaluate`. -/
structure EvalStatus where
  success : Bool
  fail_reason : List FailReason
deriving DecidableEq, Repr

/-- The function `GetMetaDataTileSize` of buffer.cpp (lines 610-631).  For the
`CSR` format the `double` result is truncated by the implicit conversion back to
`uint64_t`; for `RLE` an explicit `ceil` is applied. -/
def getMetaDataTileSize (t : DataMovementInfo) (tile_density : ℚ) : ℕ :=
  if t.metadata_format = "bitmask" then
    t.size
  else if t.metadata_format = "RLE" then
    natCeil ((t.size : ℚ) * tile_density)
  else if t.metadata_format = "CSR" then
    natFloor ((t.dense_rank1_fills : ℚ) + (t.dense_rank0_fills : ℚ) * tile_density)
  else
    0

/-- Metadata tile size converted into data-word equivalents with an explicit
`(double)` cast and `ceil`, as at lines 694/717/738/812:
`ceil((double)m * metadata_word_bits / word_bits)`. -/
def equivCeil (s : Specs) (m : ℕ) : ℕ :=
  natCeil ((m : ℚ) * (s.metadata_word_bits : ℚ) / (s.word_bits : ℚ))

/-- The same conversion inside the convergence loop (line 759) where the code
omits the `(double)` cast, so the `uint64_t` division truncates:
`ceil(m * metadata_word_bits / word_bits)` over integers. -/
def equivFloor (s : Specs) (m : ℕ) : ℕ :=
  m * s.metadata_word_bits / s.word_bits

/-- State of the sparse-size convergence loop in `ComputeAccesses`
(lines 724-775): the committed `equivalent_metadata_tile_size`,
`updated_equivalent_metadata_tile_size`, `metadata_tile_size`,
`compressed_tile_size`, `stored_data_density` and `tile_confidence`. -/
structure LoopState where
  equivalent : ℕ
  updated : ℕ
  metadata : ℕ
  compressed : ℕ
  density : ℚ
  confidence : ℚ
deriving DecidableEq, Repr

/-- The `while` guard at lines 748-749:
`updated + compressed <= 0.99 * allocated && updated != equivalent`
(the left comparison is performed in `double`). -/
def loopCond (alloc : ℕ) (s : LoopState) : Prop :=
  ((s.updated : ℚ) + (s.compressed : ℚ) ≤ 99 / 100 * (alloc : ℚ)) ∧ s.updated ≠ s.equivalent

instance (alloc : ℕ) (s : LoopState) : Decidable (loopCond alloc s) := by
  unfold loopCond
  infer_instance

/-- One iteration of the convergence loop body (lines 751-771).  The
`if updated + tmp_compressed > alloc` clamp restores the previous estimate
(forcing exit), and the tmp values are committed only when the new estimate
differs from the previous one. -/
def loopBody (specs : Specs) (t : DataMovementInfo) (alloc : ℕ) (s : LoopState) : LoopState :=
  let e := s.updated
  let cap := u64sub alloc e
  let conf := t.tile_density.tileConfidence t.size cap
  let d := t.tile_density.tileDensityByConfidenceCap t.size conf cap
  let c := natCeil ((t.size : ℚ) * d)
  let m := getMetaDataTileSize t d
  let u' := equivFloor specs m
  let u := if u' + c > alloc then e else u'
  if u ≠ e then
    { equivalent := e, updated := u, metadata := m, compressed := c, density := d,
      confidence := conf }
  else
    { s with equivalent := e, updated := u }

/-- Fuelled execution of the convergence loop.  The Boolean result is `true`
when the loop exited its guard within the given fuel; the C++ loop has no fuel,
so a `false` result means the source loop is still running after that many
iterations. -/
def loopRun (specs : Specs) (t : DataMovementInfo) (alloc : ℕ) :
    ℕ → LoopState → Bool × LoopState
  | 0, s => if loopCond alloc s then (false, s) else (true, s)
  | fuel + 1, s =>
    if loopCond alloc s then loopRun specs t alloc fuel (loopBody specs t alloc s)
    else (true, s)

/-- Result of the per-tensor compressed-size estimation (lines 670-795 of
`ComputeAccesses`): `tile_confidence`, `stored_data_density`,
`compressed_tile_size` and `metadata_tile_size`, plus the fuel-exit flag of the
convergence loop (`finished = true` whenever no loop ran). -/
structure TileEstimate where
  confidence : ℚ
  density : ℚ
  compressed : ℕ
  metadata : ℕ
  finished : Bool
deriving DecidableEq, Repr

/-- The per-tensor compressed-tile-size / metadata-size estimation of
`ComputeAccesses` (lines 670-795), covering: no compression; a user-defined
confidence knob; compressed with finite `effective_size` (proportional
allocation, conservative retry and convergence loop); and compressed with
unbounded capacity.  `total` is `total_tile_size` computed over all tensors
(lines 651-656). -/
def estimateTile (specs : Specs) (fuel : ℕ) (total : ℕ) (t : DataMovementInfo) : TileEstimate :=
  if t.compressed then
    if t.tile_density.user_defined_knob then
      let conf := t.tile_density.userDefinedConfidence
      let d := t.tile_density.tileDensityByConfidence t.size conf
      { confidence := conf, density := d, compressed := natCeil ((t.size : ℚ) * d),
        metadata := getMetaDataTileSize t d, finished := true }
    else
      match effectiveSize specs with
      | some eff =>
        let m0 := getMetaDataTileSize t (t.tile_density.tileExpectedDensity t.size)
        let e0 := equivCeil specs m0
        -- line 697: all operands are unsigned integers, so the division is
        -- integer division and the outer ceil is the identity
        let alloc := if total ≠ 0 then eff * (t.size + e0) / total else eff
        let cap1 := u64sub alloc e0
        let conf1 := t.tile_density.tileConfidence t.size cap1
        let d1 := t.tile_density.tileDensityByConfidenceCap t.size conf1 cap1
        let c1 := natCeil ((t.size : ℚ) * d1)
        let m1 := getMetaDataTileSize t d1
        let e1 := equivCeil specs m1
        if e1 + c1 > alloc ∧ conf1 ≠ 0 then
          -- conservative retry with "-1" slack (lines 724-741)
          let cap2 := u64sub alloc (e1 + 1)
          let conf2 := t.tile_density.tileConfidence t.size cap2
          let d2 := t.tile_density.tileDensityByConfidenceCap t.size conf2 cap2
          let c2 := natCeil ((t.size : ℚ) * d2)
          let m2 := getMetaDataTileSize t d2
          let u2 := equivCeil specs m2
          let r := loopRun specs t alloc fuel
            { equivalent := e1, updated := u2, metadata := m2, compressed := c2,
              density := d2, confidence := conf2 }
          { confidence := (r.2).confidence, density := (r.2).density,
            compressed := (r.2).compressed, metadata := (r.2).metadata, finished := r.1 }
        else
          { confidence := conf1, density := d1, compressed := c1, metadata := m1,
            finished := true }
      | none =>
        -- infinite memory size, e.g. DRAM (lines 778-784)
        let d := t.tile_density.tileExpectedDensity t.size
        { confidence := 1, density := d, compressed := natCeil ((t.size : ℚ) * d),
          metadata := getMetaDataTileSize t d, finished := true }
  else
    -- no compression (lines 789-795); the initializers of lines 670-673 leave
    -- confidence and density at 1.0 and metadata at 0 unless the format is bitmask
    { confidence := 1, density := 1, compressed := t.size,
      metadata := if t.metadata_format = "bitmask" then t.size else 0, finished := true }

/-- Default tile descriptor used to model out-of-range accesses of the
per-dataspace arrays (the C++ arrays have exactly `NumDataSpaces` entries, so
entries beyond the input list never matter). -/
def dmiDefault : DataMovementInfo where
  size := 0
  partition_size := 0
  content_accesses := 0
  compressed := false
  metadata_format := ""
  dense_rank0_fills := 0
  dense_rank1_fills := 0
  tile_density :=
    { user_defined_knob := false, userDefinedConfidence := 1,
      tileExpectedDensity := fun _ => 1, tileConfidence := fun _ _ => 1,
      tileDensityByConfidence := fun _ _ => 1,
      tileDensityByConfidenceCap := fun _ _ _ => 1 }
  replication_factor := 0
  reads := 0
  updates := 0
  fills := 0
  temporal_reductions := 0
  metadata_reads := 0
  metadata_fills := 0
  metadata_updates := 0
  fine_grained_accesses := fun _ => 0
  parent_level := none
  parent_level_name := ""
  parent_level_op_energy := fun _ => 0
  parent_level_simple_specs := fun _ => 0
  subnest := []

/-- Modelled from the spec: the fine-grained storage action names of
`tiling::storageOperationTypes` (the list itself lives outside buffer.cpp).  The
spec gives the actions as `random/gated/skipped × read/fill/update`, their
metadata variants, and the decompression/compression counts.  buffer.cpp
classifies each name by substring: names containing neither `metadata` nor
`count` (this list), -/
def dataOpNames : List String :=
  ["random_read", "gated_read", "skipped_read",
   "random_fill", "gated_fill", "skipped_fill",
   "random_update", "gated_update", "skipped_update"]

/-- Modelled from the spec: the action names containing `metadata` but not
`count` (metadata storage accesses). -/
def metadataOpNames : List String :=
  ["metadata_read", "gated_metadata_read",
   "metadata_fill", "gated_metadata_fill",
   "metadata_update", "gated_metadata_update"]

/-- Modelled from the spec: the action names containing `count`
(decompression/compression occurrences, charged directly per count). -/
def countOpNames : List String :=
  ["decompression_count", "compression_count"]

/-- `total_tile_size` of `ComputeAccesses` (lines 651-656): the sum over all
tensors of the raw tile size plus the metadata size (at expected density) in
data-word equivalents. -/
def totalTileSize (specs : Specs) (tiles : List DataMovementInfo) : ℕ :=
  (tiles.map fun t =>
    t.size + equivCeil specs
      (getMetaDataTileSize t (t.tile_density.tileExpectedDensity t.size))).sum

/-- `stats_.utilized_capacity[pv]` (lines 811-813): compressed tile size plus
metadata in data-word equivalents. -/
def utilizedCapacityOf (specs : Specs) (fuel total : ℕ) (t : DataMovementInfo) : ℕ :=
  let est := estimateTile specs fuel total t
  est.compressed + equivCeil specs est.metadata

/-- `total_utilized_capacity` (lines 893-895): accumulated over all dataspaces. -/
def totalUtilizedCapacity (specs : Specs) (fuel : ℕ) (tiles : List DataMovementInfo) : ℕ :=
  (tiles.map (utilizedCapacityOf specs fuel (totalTileSize specs tiles))).sum

/-- The assertion at line 816:
`assert((tile[pvi].size == 0) == (tile[pvi].content_accesses == 0))`, checked
for every tensor; a violation aborts the process. -/
def assertsOk (tiles : List DataMovementInfo) : Bool :=
  tiles.all fun t => (t.size == 0) == (t.content_accesses == 0)

/-- `stats_.utilized_instances.Max()` (line 949): the largest replication
factor over all dataspaces. -/
def maxUtilizedInstances (tiles : List DataMovementInfo) : ℕ :=
  (tiles.map (fun t => t.replication_factor)).foldr max 0

/-- Whether every per-tensor convergence loop exits within `fuel` iterations —
the runs on which the fuelled model agrees with the (unfuelled) source loop. -/
def allEstimatesFinished (specs : Specs) (fuel : ℕ) (tiles : List DataMovementInfo) : Bool :=
  tiles.all fun t => (estimateTile specs fuel (totalTileSize specs tiles) t).finished

/-- Per-tensor input of `PreEvaluationCheck`: the working-set size, the keep
mask bit, and the workload's density model for this dataspace
(`workload->GetDensity(pvi).GetTileExpectedDensity`). -/
structure PreTensor where
  workingSetSize : ℕ
  masked : Bool
  expectedDensity : ℕ → ℚ

/-- `required_capacity` of `PreEvaluationCheck` (lines 529-539): the sum over
masked tensors of `ceil(dense_working_set_size * expected_density)`. -/
def requiredCapacity (ins : List PreTensor) : ℕ :=
  (ins.map fun p =>
    if p.masked then natCeil ((p.workingSetSize : ℚ) * p.expectedDensity p.workingSetSize)
    else 0).sum

/-- `available_capacity` of `PreEvaluationCheck` (lines 522-526):
`effective_size`, multiplied by `instances` when the read network supports
distributed multicast. -/
def availableCapacity (specs : Specs) (kol : Collab) (eff : ℕ) : ℕ :=
  if kol.multicastReadSupported then eff * specs.instances else eff

/-- `BufferLevel::PreEvaluationCheck` (lines 504-561). -/
def preEvaluationCheck (specs : Specs) (kol : Collab) (ins : List PreTensor) : EvalStatus :=
  match effectiveSize specs with
  | none => { success := true, fail_reason := [] }
  | some eff =>
    let avail := availableCapacity specs kol eff
    let req := requiredCapacity ins
    if req > avail then
      { success := false, fail_reason := [FailReason.capacityExceeded] }
    else if (req : ℚ) < (eff : ℚ) * specs.min_utilization then
      { success := false, fail_reason := [FailReason.minUtilization] }
    else
      { success := true, fail_reason := [] }

/-- Total unconstrained read bandwidth (lines 1141-1150, 1158): the sum over
tensors of `reads / compute_cycles`.  The rational division models the C++
`double` division only for `compute_cycles > 0` (at 0 the doubles produce
±inf), so every performance statement below carries a `0 < compute_cycles`
hypothesis. -/
def totalUnconstrainedReadBW (tiles : List DataMovementInfo) (cc : ℕ) : ℚ :=
  (tiles.map fun t => (t.reads : ℚ) / (cc : ℚ)).sum

/-- Total unconstrained write bandwidth (lines 1141-1150, 1159): the sum over
tensors of `(updates + fills) / compute_cycles`; like the read direction, it
models the C++ `double` division only for `compute_cycles > 0`. -/
def totalUnconstrainedWriteBW (tiles : List DataMovementInfo) (cc : ℕ) : ℚ :=
  (tiles.map fun t => ((t.updates : ℚ) + (t.fills : ℚ)) / (cc : ℚ)).sum

/-- `stats_.slowdown` as computed by `ComputePerformance` (lines 1155-1174):
starts at 1.0 and is reduced by each specified bandwidth cap that is below the
corresponding unconstrained total. -/
def slowdownOf (specs : Specs) (tiles : List DataMovementInfo) (cc : ℕ) : ℚ :=
  let totalR := totalUnconstrainedReadBW tiles cc
  let totalW := totalUnconstrainedWriteBW tiles cc
  let s1 : ℚ :=
    match specs.read_bandwidth with
    | some r => if r < totalR then min 1 (r / totalR) else 1
    | none => 1
  match specs.write_bandwidth with
  | some wbw => if wbw < totalW then min s1 (wbw / totalW) else s1
  | none => s1

/-- `stats_.cycles` (line 1192): `ceil(compute_cycles / slowdown)`. -/
def cyclesOf (specs : Specs) (tiles : List DataMovementInfo) (cc : ℕ) : ℕ :=
  natCeil ((cc : ℚ) / slowdownOf specs tiles cc)

/-- Per-dataspace entries of `BufferLevel::Stats`, as written by
`ComputeAccesses`, `ComputeBufferEnergy`, `ComputeReductionEnergy`,
`ComputeAddrGenEnergy` and `ComputePerformance`.  `energy_per_access = none`
models the IEEE NaN/Inf produced when the code divides by a zero access count
(line 1077). -/
structure TensorStats where
  keep : Bool
  partition_size : ℕ
  tile_size : ℕ
  tile_confidence : ℚ
  compressed_tile_size : ℕ
  metadata_tile_size : ℕ
  tile_max_density : ℚ
  utilized_capacity : ℕ
  utilized_instances : ℕ
  utilized_clusters : ℕ
  reads : ℕ
  updates : ℕ
  fills : ℕ
  temporal_reductions : ℕ
  address_generations : ℕ
  metadata_reads : ℕ
  metadata_fills : ℕ
  metadata_updates : ℕ
  gated_reads : ℕ
  skipped_reads : ℕ
  random_reads : ℕ
  gated_fills : ℕ
  skipped_fills : ℕ
  random_fills : ℕ
  random_updates : ℕ
  gated_updates : ℕ
  skipped_updates : ℕ
  random_metadata_reads : ℕ
  gated_metadata_reads : ℕ
  random_metadata_fills : ℕ
  gated_metadata_fills : ℕ
  random_metadata_updates : ℕ
  gated_metadata_updates : ℕ
  decompression_counts : ℕ
  compression_counts : ℕ
  parent_level_name : String
  energy : ℚ
  energy_per_access : Option ℚ
  speculation_energy_cost : ℚ
  temporal_reduction_energy : ℚ
  addr_gen_energy : ℚ
  read_bandwidth : ℚ
  write_bandwidth : ℚ

/-- The whole per-level mutable state touched by `Evaluate`: the per-dataspace
stats, the level-wide stats, the `is_evaluated_` flag, the mutated
`specs_.addr_gen_bits`, the copied `subnest_`, and the returned `EvalStatus`. -/
structure LevelState where
  per : ℕ → TensorStats
  slowdown : ℚ
  cycles : ℕ
  addr_gen_bits : ℕ
  is_evaluated : Bool
  subnest : List ℕ
  last_status : EvalStatus

/-- All per-dataspace stats for one tensor, combining the writes of
`ComputeAccesses` (always executed), and of `ComputeBufferEnergy`,
`ComputeReductionEnergy`, `ComputeAddrGenEnergy` and `ComputePerformance`
(executed only when `doEP` holds, i.e. `!break_on_failure || success` in
`Evaluate`; otherwise those fields keep the value from the previous call,
passed in as `old`).  `slow` is the level-wide slowdown and `agb` the
`addr_gen_bits` value derived in this call. -/
def computeTensorStats (specs : Specs) (w : Workload) (kol : Collab)
    (fuel total : ℕ) (slow : ℚ) (agb : ℕ) (cc : ℕ) (doEP : Bool)
    (i : ℕ) (t : DataMovementInfo) (keepBit : Bool) (old : TensorStats) : TensorStats :=
  let est := estimateTile specs fuel total t
  let uc := est.compressed + equivCeil specs est.metadata
  let ui := t.replication_factor
  -- lines 969-971: number of clusters and utilized clusters
  let uclusters := min ui (specs.instances / specs.cluster_size)
  -- ComputeBufferEnergy, lines 990-1004: scalar and vector access counts
  let ia := t.reads + t.updates + t.fills
  let va : ℕ := if ia % specs.block_size = 0 then ia / specs.block_size
                else ia / specs.block_size + 1
  let ima := t.metadata_reads + t.metadata_fills + t.metadata_updates
  let mva : ℕ := if ima % specs.metadata_block_size = 0 then ima / specs.metadata_block_size
                 else ima / specs.metadata_block_size + 1
  -- lines 1013-1043: per-action-type cluster access energy; the per-op zero
  -- guard `if (instance_accesses != 0)` is common to all ops of a class, so it
  -- is factored outside the per-class sum
  let dataE : ℚ :=
    if ia ≠ 0 then
      (dataOpNames.map fun op =>
        (va : ℚ) * (t.fine_grained_accesses op : ℚ) / (ia : ℚ) * specs.op_energy_map op).sum
    else 0
  let metaE : ℚ :=
    if ima ≠ 0 then
      (metadataOpNames.map fun op =>
        (mva : ℚ) * (t.fine_grained_accesses op : ℚ) / (ima : ℚ) * specs.op_energy_map op).sum
    else 0
  let countE : ℚ :=
    (countOpNames.map fun op =>
      (t.fine_grained_accesses op : ℚ) * specs.op_energy_map op).sum
  let cae0 := dataE + metaE + countE
  -- lines 1046-1065: speculation energy; `cluster_speculation_energy_cost` is a
  -- uint64_t, so the ceil result is stored as a natural number
  let pname0 := if t.parent_level ≠ none then t.parent_level_name else ""
  let specGuard := est.confidence ≠ 1 ∧ pname0 ≠ ""
  let pScalar := t.parent_level_op_energy ("random_read") /
    t.parent_level_simple_specs ("block_size")
  let cScalar := specs.op_energy_map ("random_read") / (specs.block_size : ℚ)
  let specRaw : ℕ :=
    if specGuard then natCeil (cae0 * (1 - est.confidence) * (pScalar / cScalar)) else 0
  let cae := if specGuard then cae0 * est.confidence else cae0
  -- lines 1071-1083: spread over utilized instances per cluster; with
  -- `utilized_instances > 0` the code divides by `cluster_utilization`
  -- unconditionally and divides the energy by `instance_accesses`, which for a
  -- zero access count is an IEEE division by zero (modelled as `none`)
  let cu : ℚ := (ui : ℚ) / (uclusters : ℚ)
  let energyVal : ℚ := ((cae : ℚ) + (specRaw : ℚ)) / cu
  { keep := keepBit
    partition_size := t.partition_size
    tile_size := t.size
    tile_confidence := est.confidence
    compressed_tile_size := est.compressed
    metadata_tile_size := est.metadata
    tile_max_density := est.density
    utilized_capacity := uc
    utilized_instances := ui
    utilized_clusters := uclusters
    reads := t.reads
    updates := t.updates
    fills := t.fills
    temporal_reductions := t.temporal_reductions
    address_generations :=
      if w.isReadWrite i then t.updates + t.fills else t.reads + t.fills
    metadata_reads := t.metadata_reads
    metadata_fills := t.metadata_fills
    metadata_updates := t.metadata_updates
    gated_reads := t.fine_grained_accesses ("gated_read")
    skipped_reads := t.fine_grained_accesses ("skipped_read")
    random_reads := t.fine_grained_accesses ("random_read")
    gated_fills := t.fine_grained_accesses ("gated_fill")
    skipped_fills := t.fine_grained_accesses ("skipped_fill")
    random_fills := t.fine_grained_accesses ("random_fill")
    random_updates := t.fine_grained_accesses ("random_update")
    gated_updates := t.fine_grained_accesses ("gated_update")
    skipped_updates := t.fine_grained_accesses ("skipped_update")
    random_metadata_reads := t.fine_grained_accesses ("metadata_read")
    gated_metadata_reads := t.fine_grained_accesses ("gated_metadata_read")
    random_metadata_fills := t.fine_grained_accesses ("metadata_fill")
    gated_metadata_fills := t.fine_grained_accesses ("gated_metadata_fill")
    random_metadata_updates := t.fine_grained_accesses ("metadata_update")
    gated_metadata_updates := t.fine_grained_accesses ("gated_metadata_update")
    decompression_counts := t.fine_grained_accesses ("decompression_count")
    compression_counts := t.fine_grained_accesses ("compression_count")
    parent_level_name := if doEP then pname0 else old.parent_level_name
    energy := if doEP then (if 0 < ui then energyVal else 0) else old.energy
    energy_per_access :=
      if doEP then
        (if 0 < ui then (if ia = 0 then none else some (energyVal / (ia : ℚ)))
         else some 0)
      else old.energy_per_access
    speculation_energy_cost :=
      if doEP ∧ 0 < ui then (specRaw : ℚ) / cu else old.speculation_energy_cost
    temporal_reduction_energy :=
      if doEP then
        (if w.isReadWrite i then
          (t.temporal_reductions : ℚ) * kol.adderEnergy specs.word_bits kol.updateNetworkWordBits
         else 0)
      else old.temporal_reduction_energy
    addr_gen_energy :=
      if doEP then
        (if specs.addr_gen_energy < 0 then
          ((if w.isReadWrite i then t.updates + t.fills else t.reads + t.fills) : ℚ) *
            kol.adderEnergy agb agb
         else
          ((if w.isReadWrite i then t.updates + t.fills else t.reads + t.fills) : ℚ) *
            specs.addr_gen_energy)
      else old.addr_gen_energy
    read_bandwidth := if doEP then slow * ((t.reads : ℚ) / (cc : ℚ)) else old.read_bandwidth
    write_bandwidth :=
      if doEP then slow * (((t.updates : ℚ) + (t.fills : ℚ)) / (cc : ℚ))
      else old.write_bandwidth }

/-- `BufferLevel::Evaluate` (lines 567-580) as a transformer of the level
state: `ComputeAccesses` always runs (stats collection, capacity validation,
`addr_gen_bits` derivation, cluster computation, `is_evaluated_` update and the
returned `EvalStatus`); the energy and performance passes run only when
`!break_on_failure || success`. -/
def evalFull (specs : Specs) (w : Workload) (kol : Collab) (fuel : ℕ)
    (tiles : List DataMovementInfo) (mask : List Bool) (cc : ℕ) (breakOnFailure : Bool)
    (st : LevelState) : LevelState :=
  let total := totalTileSize specs tiles
  let tuc := totalUtilizedCapacity specs fuel tiles
  -- lines 896-914: capacity / minimum-utilization validation
  let capFail : Bool :=
    match effectiveSize specs with
    | some eff => decide (tuc > eff)
    | none => false
  let muFail : Bool :=
    match effectiveSize specs with
    | some eff => decide (tuc ≤ eff ∧ (tuc : ℚ) < (eff : ℚ) * specs.min_utilization)
    | none => false
  -- lines 943-954: utilized instances vs available instances
  let instFail : Bool := decide (maxUtilizedInstances tiles > specs.instances)
  let success : Bool := !(capFail || muFail || instFail)
  let reasons : List FailReason :=
    (if capFail then [FailReason.capacityExceeded] else []) ++
    (if muFail then [FailReason.minUtilization] else []) ++
    (if instFail then [FailReason.instancesExceeded] else [])
  -- lines 920-942: address-generator bits; both the SRAM and (un-ifdef'd) DRAM
  -- branches use utilized capacity as a size proxy when size is unspecified;
  -- the inner division is integer division, so the outer ceil is the identity
  let agb : ℕ :=
    match specs.size with
    | some sz => Nat.clog 2 (sz / specs.block_size)
    | none => Nat.clog 2 (tuc / specs.block_size)
  let doEP : Bool := !breakOnFailure || success
  let slow := slowdownOf specs tiles cc
  { per := fun i =>
      computeTensorStats specs w kol fuel total slow agb cc doEP i
        (tiles.getD i dmiDefault) (mask.getD i false) (st.per i)
    slowdown := if doEP then slow else st.slowdown
    cycles := if doEP then cyclesOf specs tiles cc else st.cycles
    addr_gen_bits := agb
    is_evaluated := success
    subnest := (tiles.getD 0 dmiDefault).subnest
    last_status := { success := success, fail_reason := reasons } }

/-- `Evaluate` including the abort behaviour of the assertion at line 816:
`none` models the process abort (no structured status is returned), `some`
the normal return. -/
def evalChecked (specs : Specs) (w : Workload) (kol : Collab) (fuel : ℕ)
    (tiles : List DataMovementInfo) (mask : List Bool) (cc : ℕ) (breakOnFailure : Bool)
    (st : LevelState) : Option LevelState :=
  if assertsOk tiles then some (evalFull specs w kol fuel tiles mask cc breakOnFailure st)
  else none

/-- `BufferLevel::Size()` (lines 1241-1248): the per-instance size as a
`double` (meaningful when the size is specified). -/
def levelSize (specs : Specs) : ℚ := ((specs.size.getD 0 : ℕ) : ℚ)

/-- `BufferLevel::CapacityUtilization()` (lines 1250-1263): utilized capacity
summed over dataspaces weighted by utilized instances, divided by
`Size() * instances`.  `n` is `NumDataSpaces`. -/
def capacityUtilization (specs : Specs) (n : ℕ) (st : LevelState) : ℚ :=
  (((List.range n).map fun i =>
    ((st.per i).utilized_capacity * (st.per i).utilized_instances : ℕ)).sum : ℚ) /
  (levelSize specs * (specs.instances : ℚ))

/-- Default per-tensor stats record (a fresh `Stats` object before any
evaluation). -/
def tensorStatsDefault : TensorStats where
  keep := false
  partition_size := 0
  tile_size := 0
  tile_confidence := 1
  compressed_tile_size := 0
  metadata_tile_size := 0
  tile_max_density := 1
  utilized_capacity := 0
  utilized_instances := 0
  utilized_clusters := 0
  reads := 0
  updates := 0
  fills := 0
  temporal_reductions := 0
  address_generations := 0
  metadata_reads := 0
  metadata_fills := 0
  metadata_updates := 0
  gated_reads := 0
  skipped_reads := 0
  random_reads := 0
  gated_fills := 0
  skipped_fills := 0
  random_fills := 0
  random_updates := 0
  gated_updates := 0
  skipped_updates := 0
  random_metadata_reads := 0
  gated_metadata_reads := 0
  random_metadata_fills := 0
  gated_metadata_fills := 0
  random_metadata_updates := 0
  gated_metadata_updates := 0
  decompression_counts := 0
  compression_counts := 0
  parent_level_name := ""
  energy := 0
  energy_per_access := some 0
  speculation_energy_cost := 0
  temporal_reduction_energy := 0
  addr_gen_energy := 0
  read_bandwidth := 0
  write_bandwidth := 0

/-- Default level state (a freshly constructed level before any evaluation). -/
def levelStateDefault : LevelState where
  per := fun _ => tensorStatsDefault
  slowdown := 1
  cycles := 0
  addr_gen_bits := 0
  is_evaluated := false
  subnest := []
  last_status := { success := true, fail_reason := [] }

/-- A level with unspecified (infinite) capacity, word width 8, unit blocks and
one instance, used by several witnesses. -/
def specsInf : Specs where
  size := none
  multiple_buffering := 1
  min_utilization := 0
  word_bits := 8
  block_size := 1
  metadata_word_bits := 0
  metadata_block_size := 1
  cluster_size := 1
  instances := 1
  read_bandwidth := none
  write_bandwidth := none
  addr_gen_energy := 0
  op_energy_map := fun _ => 0

/-- A workload where every dataspace is read-only. -/
def wRO : Workload where
  isReadWrite := fun _ => false

/-- A plain collaborator bundle: no distributed multicast, 8-bit update
network, zero adder energy. -/
def kolPlain : Collab where
  multicastReadSupported := false
  updateNetworkWordBits := 8
  adderEnergy := fun _ _ => 0

/-- An uncompressed tile of 7 elements with RLE metadata format. -/
def c5Tile : DataMovementInfo :=
  { dmiDefault with
    size := 7
    content_accesses := 7
    replication_factor := 1
    metadata_format := "RLE" }

/-- Stated from the spec's words, for comparison with the code's `slowdownOf`:
a single scalar equal to the minimum over the binding caps of
`cap / unconstrained_total` (a cap binds when it is below the corresponding
unconstrained total; 1 when no cap binds). -/
def slowdownSpecMin (specs : Specs) (tiles : List DataMovementInfo) (cc : ℕ) : ℚ :=
  let totalR := totalUnconstrainedReadBW tiles cc
  let totalW := totalUnconstrainedWriteBW tiles cc
  min
    (match specs.read_bandwidth with
     | some r => if r < totalR then r / totalR else 1
     | none => 1)
    (match specs.write_bandwidth with
     | some wbw => if wbw < totalW then wbw / totalW else 1
     | none => 1)

/-- The level of the C4 scenario: a specified read bandwidth cap of 2.0
elements/cycle and no write cap. -/
def c4Specs : Specs :=
  { specsInf with read_bandwidth := some 2 }

/-- The tile of the C4 scenario: 400 reads over 100 compute cycles, i.e. an
unconstrained read demand of 4.0 elements/cycle. -/
def c4Tile : DataMovementInfo :=
  { dmiDefault with
    size := 100
    content_accesses := 100
    replication_factor := 1
    reads := 400 }

/-- The level of the C4 counterexample: a specified read bandwidth cap of 0
elements/cycle. -/
def c4zSpecs : Specs :=
  { specsInf with read_bandwidth := some 0 }

/-- Density model for the C1 counterexample.  It is interface-conforming — at
every capacity the code queries, the returned density fits the capacity
(`ceil(size * density) ≤ capacity`) — yet it makes the convergence loop
oscillate between metadata-equivalent estimates 10 and 20 forever. -/
def c1Density : DensityModel where
  user_defined_knob := false
  userDefinedConfidence := 1
  tileExpectedDensity := fun _ => 1/10
  tileConfidence := fun _ _ => 1/2
  tileDensityByConfidence := fun _ _ => 1/10
  tileDensityByConfidenceCap := fun _ _ cap =>
    if cap = 990 then 1/100 else if cap = 800 then 3/10 else 1/200

/-- A compressed RLE tile of 2000 elements governed by `c1Density`. -/
def c1Tile : DataMovementInfo :=
  { dmiDefault with
    size := 2000
    content_accesses := 2000
    replication_factor := 1
    compressed := true
    metadata_format := "RLE"
    tile_density := c1Density }

/-- Level for the C1 counterexample: capacity 1000 with equal data and
metadata word widths. -/
def c1Specs : Specs :=
  { specsInf with size := some 1000, word_bits := 1, metadata_word_bits := 1 }

/-- Loop entry state reached by `estimateTile` on `c1Tile` (after the
conservative retry at capacity 399). -/
def c1s0 : LoopState where
  equivalent := 600
  updated := 10
  metadata := 10
  compressed := 10
  density := 1/200
  confidence := 1/2

/-- First state of the 2-cycle (produced from `c1s0` at capacity 990). -/
def c1s1 : LoopState where
  equivalent := 10
  updated := 20
  metadata := 20
  compressed := 20
  density := 1/100
  confidence := 1/2

/-- Second state of the 2-cycle (produced from `c1s1` at capacity 980). -/
def c1s2 : LoopState where
  equivalent := 20
  updated := 10
  metadata := 10
  compressed := 10
  density := 1/200
  confidence := 1/2

/-- Entry state for the C1 invariant witness: the loop guard fails at once
(updated equals equivalent) and the entry bound holds with alloc 10. -/
def c1WitState : LoopState where
  equivalent := 0
  updated := 0
  metadata := 0
  compressed := 5
  density := 1
  confidence := 1

/-- The level of the C2/C6 scenarios: 65536 elements, word width 8, block size
1, one instance. -/
def c2Specs : Specs :=
  { specsInf with size := some 65536 }

/-- The C2 scenario tile: an uncompressed dense request of 70000 elements. -/
def c2Tile : DataMovementInfo :=
  { dmiDefault with
    size := 70000
    content_accesses := 70000
    replication_factor := 1 }

/-- The C6 scenario tile: an uncompressed dense tile of 65536 elements, one
instance. -/
def c6Tile : DataMovementInfo :=
  { dmiDefault with
    size := 65536
    content_accesses := 65536
    replication_factor := 1
    reads := 65536 }

/-- The C9 failing input: a tensor with zero reads/updates/fills (zero total
scalar accesses) but a positive replication factor (one utilized instance). -/
def c9Tile : DataMovementInfo :=
  { dmiDefault with replication_factor := 1 }

/-- Level for the C8 counterexample: capacity 100 with a full minimum
utilization requirement (`min_utilization = 1`). -/
def c8Specs : Specs :=
  { specsInf with size := some 100, min_utilization := 1 }

/-- Pre-check input for the C8 counterexample: one masked tensor with a
working-set of 50 dense elements. -/
def c8Pre : List PreTensor :=
  [{ workingSetSize := 50, masked := true, expectedDensity := fun _ => 1 }]

/-- Evaluation tile for the C8 counterexample: an uncompressed tile of 100
elements (at least the working-set size 50). -/
def c8Tile : DataMovementInfo :=
  { dmiDefault with
    size := 100
    content_accesses := 100
    replication_factor := 1 }

/-- Level for the C8 amended witness: capacity 10, no utilization floor. -/
def c8bSpecs : Specs :=
  { specsInf with size := some 10 }

/-- Pre-check input for the C8 amended witness: one masked dense tensor of
working-set size 20 (exceeding the capacity 10). -/
def c8bPre : List PreTensor :=
  [{ workingSetSize := 20, masked := true, expectedDensity := fun _ => 1 }]

/-- Evaluation tile for the C8 amended witness: an uncompressed 20-element
tile. -/
def c8bTile : DataMovementInfo :=
  { dmiDefault with
    size := 20
    content_accesses := 20
    replication_factor := 1 }

theorem natCeil_eq_of (q : ℚ) (n : ℕ) (h1 : (n : ℚ) - 1 < q) (h2 : q ≤ (n : ℚ)) :
    natCeil q = n := by
  have hc : Int.ceil q = (n : ℤ) := by
    rw [Int.ceil_eq_iff]
    constructor
    · push_cast
      exact h1
    · push_cast
      exact h2
  rw [natCeil, hc]
  exact Int.toNat_natCast n

theorem natFloor_eq_of (q : ℚ) (n : ℕ) (h1 : (n : ℚ) ≤ q) (h2 : q < (n : ℚ) + 1) :
    natFloor q = n := by
  have hc : Int.floor q = (n : ℤ) := by
    rw [Int.floor_eq_iff]
    constructor
    · push_cast
      exact h1
    · push_cast
      exact h2
  rw [natFloor, hc]
  exact Int.toNat_natCast n

theorem natCeil_natCast (n : ℕ) : natCeil (n : ℚ) = n := by
  rw [natCeil, Int.ceil_natCast]
  exact Int.toNat_natCast n

theorem natCeil_le_of_le (q : ℚ) (n : ℕ) (h : q ≤ (n : ℚ)) : natCeil q ≤ n := by
  rw [natCeil]
  have : Int.ceil q ≤ (n : ℤ) := by
    rw [Int.ceil_le]
    push_cast
    exact h
  omega

/-- C3: `PreEvaluationCheck` succeeds whenever the level's capacity is
unspecified; otherwise it compares `requiredCapacity` (the sum over masked
tensors of `ceil(working_set_size * expected_density(working_set_size))`)
against `availableCapacity` (`effective_size`, multiplied by `instances` under
distributed multicast) and fails exactly when required exceeds available or
required is below `effective_size * min_utilization`. -/
theorem c3_pre_evaluation_check (specs : Specs) (kol : Collab) (ins : List PreTensor) :
    (specs.size = none → (preEvaluationCheck specs kol ins).success = true) ∧
    (∀ eff, effectiveSize specs = some eff →
      ((preEvaluationCheck specs kol ins).success = false ↔
        (availableCapacity specs kol eff < requiredCapacity ins ∨
          (requiredCapacity ins : ℚ) < (eff : ℚ) * specs.min_utilization))) := by
  constructor
  · intro h
    unfold preEvaluationCheck effectiveSize
    rw [h]
    rfl
  · intro eff heff
    unfold preEvaluationCheck
    rw [heff]
    dsimp only
    split_ifs with h1 h2
    · exact iff_of_true rfl (Or.inl h1)
    · exact iff_of_true rfl (Or.inr h2)
    · refine iff_of_false (by simp) ?_
      push_neg
      exact ⟨le_of_not_lt h1, le_of_not_lt h2⟩

theorem natFloor_natCast (n : ℕ) : natFloor (n : ℚ) = n := by
  rw [natFloor, Int.floor_natCast]
  exact Int.toNat_natCast n

theorem effectiveSize_mb_one (s : Specs) (h : s.multiple_buffering = 1) :
    effectiveSize s = s.size := by
  unfold effectiveSize
  cases hs : s.size with
  | none => rfl
  | some sz => simp [h, natFloor_natCast]

/-- Witness for C3 at a concrete level: size 100, multiple-buffering 1,
min-utilization 1/2, one masked tensor of working-set size 10 at density 1:
required = 10, available = 100, and 10 < 100 * (1/2), so the check fails. -/
theorem c3_pre_evaluation_check_witness :
    (preEvaluationCheck
      { size := some 100, multiple_buffering := 1, min_utilization := 1/2,
        word_bits := 8, block_size := 1, metadata_word_bits := 0,
        metadata_block_size := 1, cluster_size := 1, instances := 1,
        read_bandwidth := none, write_bandwidth := none, addr_gen_energy := 0,
        op_energy_map := fun _ => 0 }
      { multicastReadSupported := false, updateNetworkWordBits := 8,
        adderEnergy := fun _ _ => 0 }
      [{ workingSetSize := 10, masked := true, expectedDensity := fun _ => 1 }]).success
      = false := by
  have heff : effectiveSize
      { size := some 100, multiple_buffering := 1, min_utilization := 1/2,
        word_bits := 8, block_size := 1, metadata_word_bits := 0,
        metadata_block_size := 1, cluster_size := 1, instances := 1,
        read_bandwidth := none, write_bandwidth := none, addr_gen_energy := 0,
        op_energy_map := fun _ => 0 } = some 100 := by
    rw [effectiveSize_mb_one _ rfl]
  have hreq : requiredCapacity
      [{ workingSetSize := 10, masked := true, expectedDensity := fun _ => 1 }] = 10 := by
    simp only [requiredCapacity, List.map_cons, List.map_nil, List.sum_cons,
      List.sum_nil, if_true, Nat.add_zero, mul_one]
    exact natCeil_natCast 10
  exact ((c3_pre_evaluation_check _ _ _).2 100 heff).mpr
    (Or.inr (by rw [hreq]; norm_num))

/-- C5: for every tensor whose descriptor has compression disabled,
`ComputeAccesses` sets `compressed_tile_size` equal to the raw tile size and
`metadata_tile_size` equal to the raw tile size for the bitmask metadata
format and zero for every other format. -/
theorem c5_no_compression (specs : Specs) (w : Workload) (kol : Collab) (fuel : ℕ)
    (tiles : List DataMovementInfo) (mask : List Bool) (cc : ℕ) (b : Bool)
    (st : LevelState) (i : ℕ) (hi : i < tiles.length)
    (hc : (tiles.get ⟨i, hi⟩).compressed = false) :
    ((evalFull specs w kol fuel tiles mask cc b st).per i).compressed_tile_size
        = (tiles.get ⟨i, hi⟩).size ∧
    ((evalFull specs w kol fuel tiles mask cc b st).per i).metadata_tile_size
        = (if (tiles.get ⟨i, hi⟩).metadata_format = "bitmask"
           then (tiles.get ⟨i, hi⟩).size else 0) := by
  have hg : tiles.getD i dmiDefault = tiles.get ⟨i, hi⟩ :=
    List.getD_eq_get tiles dmiDefault hi
  constructor <;>
  · simp only [evalFull, computeTensorStats, hg, estimateTile, hc]
    simp

/-- Witness for C5: the single uncompressed tensor `c5Tile` (RLE metadata
format) gets compressed size equal to its tile size 7. -/
theorem c5_no_compression_witness :
    ((evalFull specsInf wRO kolPlain 0 [c5Tile] [true] 1 false
        levelStateDefault).per 0).compressed_tile_size = 7 := by
  have h := c5_no_compression specsInf wRO kolPlain 0 [c5Tile] [true] 1 false
    levelStateDefault 0 (by simp) (by rfl)
  exact h.1

theorem beq_beq_iff (a b c d : ℕ) :
    ((a == b) == (c == d)) = true ↔ ((a = b) ↔ (c = d)) := by
  by_cases h1 : a = b <;> by_cases h2 : c = d <;> simp [h1, h2]

/-- C10: `Evaluate` (via `ComputeAccesses`) asserts for every tile descriptor
that the tile size is zero exactly when the content-access count is zero; a
violating descriptor aborts the process (`none`) instead of producing a
structured failure status. -/
theorem c10_assert_zero_size_iff_zero_accesses (specs : Specs) (w : Workload)
    (kol : Collab) (fuel : ℕ) (tiles : List DataMovementInfo) (mask : List Bool)
    (cc : ℕ) (b : Bool) (st : LevelState) :
    evalChecked specs w kol fuel tiles mask cc b st = none ↔
      ∃ t ∈ tiles, ¬((t.size = 0) ↔ (t.content_accesses = 0)) := by
  unfold evalChecked
  split_ifs with h
  · simp only [reduceCtorEq, false_iff]
    rintro ⟨t, ht, hcon⟩
    rw [assertsOk, List.all_eq_true] at h
    exact hcon ((beq_beq_iff _ _ _ _).mp (h t ht))
  · simp only [true_iff]
    rw [assertsOk] at h
    have h' : ¬ ∀ t ∈ tiles, ((t.size == 0) == (t.content_accesses == 0)) = true := by
      intro hall
      exact h (List.all_eq_true.mpr hall)
    push_neg at h'
    obtain ⟨t, ht, hbad⟩ := h'
    exact ⟨t, ht, fun hcon => hbad ((beq_beq_iff _ _ _ _).mpr hcon)⟩

theorem cap_ratio_pos_lt_one {capq totalq : ℚ} (hc : 0 < capq) (h : capq < totalq) :
    0 < capq / totalq ∧ capq / totalq < 1 :=
  ⟨div_pos hc (lt_trans hc h), (div_lt_one (lt_trans hc h)).mpr h⟩

theorem slowdownOf_eq_specMin (specs : Specs) (tiles : List DataMovementInfo) (cc : ℕ)
    (hr : ∀ r, specs.read_bandwidth = some r → 0 < r) :
    slowdownOf specs tiles cc = slowdownSpecMin specs tiles cc := by
  unfold slowdownOf slowdownSpecMin
  rcases hrb : specs.read_bandwidth with _ | r
  · rcases hwb : specs.write_bandwidth with _ | wq
    · dsimp only
      rw [min_self]
    · dsimp only
      by_cases hbw : wq < totalUnconstrainedWriteBW tiles cc
      · simp only [if_pos hbw]
      · simp only [if_neg hbw]
        rw [min_self]
  · rcases hwb : specs.write_bandwidth with _ | wq
    · dsimp only
      by_cases hbr : r < totalUnconstrainedReadBW tiles cc
      · simp only [if_pos hbr]
        rw [min_comm]
      · simp only [if_neg hbr]
        rw [min_self]
    · dsimp only
      by_cases hbr : r < totalUnconstrainedReadBW tiles cc <;>
        by_cases hbw : wq < totalUnconstrainedWriteBW tiles cc
      · have h1 := cap_ratio_pos_lt_one (hr r hrb) hbr
        simp only [if_pos hbr, if_pos hbw]
        rw [min_eq_right (le_of_lt h1.2)]
      · have h1 := cap_ratio_pos_lt_one (hr r hrb) hbr
        simp only [if_pos hbr, if_neg hbw]
        rw [min_comm]
      · simp only [if_neg hbr, if_pos hbw]
      · simp only [if_neg hbr, if_neg hbw]
        rw [min_self]

theorem slowdownSpecMin_pos_le_one (specs : Specs) (tiles : List DataMovementInfo) (cc : ℕ)
    (hr : ∀ r, specs.read_bandwidth = some r → 0 < r)
    (hw : ∀ r, specs.write_bandwidth = some r → 0 < r) :
    0 < slowdownSpecMin specs tiles cc ∧ slowdownSpecMin specs tiles cc ≤ 1 := by
  unfold slowdownSpecMin
  rcases hrb : specs.read_bandwidth with _ | r <;>
    rcases hwb : specs.write_bandwidth with _ | wq <;> dsimp only
  · exact ⟨by rw [min_self]; exact one_pos, by rw [min_self]⟩
  · split_ifs with hb
    · have h1 := cap_ratio_pos_lt_one (hw wq hwb) hb
      exact ⟨lt_min one_pos h1.1, min_le_left _ _⟩
    · exact ⟨by rw [min_self]; exact one_pos, by rw [min_self]⟩
  · split_ifs with hb
    · have h1 := cap_ratio_pos_lt_one (hr r hrb) hb
      exact ⟨lt_min h1.1 one_pos, min_le_right _ _⟩
    · exact ⟨by rw [min_self]; exact one_pos, by rw [min_self]⟩
  · split_ifs with hbr hbw hbw
    · have h1 := cap_ratio_pos_lt_one (hr r hrb) hbr
      have h2 := cap_ratio_pos_lt_one (hw wq hwb) hbw
      exact ⟨lt_min h1.1 h2.1, le_trans (min_le_left _ _) (le_of_lt h1.2)⟩
    · have h1 := cap_ratio_pos_lt_one (hr r hrb) hbr
      exact ⟨lt_min h1.1 one_pos, min_le_right _ _⟩
    · have h2 := cap_ratio_pos_lt_one (hw wq hwb) hbw
      exact ⟨lt_min one_pos h2.1, min_le_left _ _⟩
    · exact ⟨by rw [min_self]; exact one_pos, by rw [min_self]⟩

theorem slowdownOf_eq_one_of_no_binding (specs : Specs) (tiles : List DataMovementInfo)
    (cc : ℕ)
    (hnor : ∀ r, specs.read_bandwidth = some r → totalUnconstrainedReadBW tiles cc ≤ r)
    (hnow : ∀ r, specs.write_bandwidth = some r → totalUnconstrainedWriteBW tiles cc ≤ r) :
    slowdownOf specs tiles cc = 1 := by
  unfold slowdownOf
  rcases hrb : specs.read_bandwidth with _ | r
  · rcases hwb : specs.write_bandwidth with _ | wq
    · rfl
    · dsimp only
      rw [if_neg (not_lt.mpr (hnow wq hwb))]
  · rcases hwb : specs.write_bandwidth with _ | wq
    · dsimp only
      rw [if_neg (not_lt.mpr (hnor r hrb))]
    · dsimp only
      rw [if_neg (not_lt.mpr (hnow wq hwb)), if_neg (not_lt.mpr (hnor r hrb))]

theorem c4_totalR : totalUnconstrainedReadBW [c4Tile] 100 = 4 := by
  simp only [totalUnconstrainedReadBW, List.map_cons, List.map_nil, List.sum_cons,
    List.sum_nil, add_zero]
  rw [show c4Tile.reads = 400 from rfl]
  push_cast
  norm_num

/-- C4 counterexample: with a specified read bandwidth cap of 0 elements/cycle
and a positive unconstrained read demand (4.0 elements/cycle over 100 compute
cycles), `ComputePerformance` computes `slowdown = min(1, 0/4) = 0`, outside
the claimed interval (0, 1].  (Here the rational model coincides exactly with
the C++ doubles: 0/4.0 = 0.0.) -/
theorem c4_zero_cap_counterexample :
    slowdownOf c4zSpecs [c4Tile] 100 = 0 ∧
    ¬ (0 < slowdownOf c4zSpecs [c4Tile] 100) := by
  have h0 : slowdownOf c4zSpecs [c4Tile] 100 = 0 := by
    unfold slowdownOf
    rw [show c4zSpecs.read_bandwidth = some 0 from rfl,
      show c4zSpecs.write_bandwidth = none from rfl]
    dsimp only
    rw [c4_totalR, if_pos (by norm_num)]
    norm_num
  exact ⟨h0, by rw [h0]; norm_num⟩

/-- C4 (amended): provided `compute_cycles` is positive (so the rational
unconstrained totals model the C++ doubles) and every specified bandwidth cap
is positive, `ComputePerformance` produces a slowdown in (0, 1], sets cycles
to `ceil(compute_cycles / slowdown)`, realizes the slowdown as the minimum
over binding caps of `cap / unconstrained_total`, and yields slowdown 1 and
`cycles = compute_cycles` when no specified cap is below its unconstrained
total.  The positivity side conditions are forced by the counterexample: a
specified cap of 0 against positive demand gives slowdown 0, and at
`compute_cycles = 0` the C++ doubles produce infinite unconstrained totals
(and again a zero slowdown under any finite cap). -/
theorem c4_compute_performance (specs : Specs) (tiles : List DataMovementInfo) (cc : ℕ)
    (_hcc : 0 < cc)
    (hr : ∀ r, specs.read_bandwidth = some r → 0 < r)
    (hw : ∀ r, specs.write_bandwidth = some r → 0 < r) :
    0 < slowdownOf specs tiles cc ∧
    slowdownOf specs tiles cc ≤ 1 ∧
    cyclesOf specs tiles cc = natCeil ((cc : ℚ) / slowdownOf specs tiles cc) ∧
    slowdownOf specs tiles cc = slowdownSpecMin specs tiles cc ∧
    ((∀ r, specs.read_bandwidth = some r → totalUnconstrainedReadBW tiles cc ≤ r) →
     (∀ r, specs.write_bandwidth = some r → totalUnconstrainedWriteBW tiles cc ≤ r) →
      slowdownOf specs tiles cc = 1 ∧ cyclesOf specs tiles cc = cc) := by
  have heq := slowdownOf_eq_specMin specs tiles cc hr
  have hb := slowdownSpecMin_pos_le_one specs tiles cc hr hw
  refine ⟨heq ▸ hb.1, heq ▸ hb.2, rfl, heq, fun hnor hnow => ?_⟩
  have h1 := slowdownOf_eq_one_of_no_binding specs tiles cc hnor hnow
  refine ⟨h1, ?_⟩
  rw [cyclesOf, h1, div_one, natCeil_natCast]

/-- Witness for (amended) C4 (the spec scenario): read cap 2.0 against
unconstrained demand 4.0 over 100 compute cycles gives a positive slowdown
equal to 0.5 and 200 cycles. -/
theorem c4_compute_performance_witness :
    0 < (100 : ℕ) ∧
    0 < slowdownOf c4Specs [c4Tile] 100 ∧
    slowdownOf c4Specs [c4Tile] 100 = 1/2 ∧
    cyclesOf c4Specs [c4Tile] 100 = 200 := by
  have hr : ∀ r, c4Specs.read_bandwidth = some r → 0 < r := by
    intro r h
    rw [show c4Specs.read_bandwidth = some 2 from rfl] at h
    injection h with h'
    rw [← h']
    norm_num
  have hw : ∀ r, c4Specs.write_bandwidth = some r → 0 < r := by
    intro r h
    rw [show c4Specs.write_bandwidth = none from rfl] at h
    exact absurd h (by simp)
  have hpos := (c4_compute_performance c4Specs [c4Tile] 100 (by norm_num) hr hw).1
  have hslow : slowdownOf c4Specs [c4Tile] 100 = 1/2 := by
    unfold slowdownOf
    rw [show c4Specs.read_bandwidth = some 2 from rfl,
      show c4Specs.write_bandwidth = none from rfl]
    dsimp only
    rw [c4_totalR, if_pos (by norm_num)]
    rw [min_eq_right (by norm_num)]
    norm_num
  refine ⟨by norm_num, hpos, hslow, ?_⟩
  rw [cyclesOf, hslow]
  rw [show ((100 : ℕ) : ℚ) / (1/2) = ((200 : ℕ) : ℚ) by push_cast; norm_num]
  exact natCeil_natCast 200

theorem natCeil_zero : natCeil 0 = 0 := by
  rw [natCeil, Int.ceil_zero]
  rfl

theorem natCeil_one : natCeil 1 = 1 := by
  rw [natCeil, Int.ceil_one]
  rfl

theorem natCeil_ofNat (n : ℕ) [n.AtLeastTwo] :
    natCeil (OfNat.ofNat n : ℚ) = OfNat.ofNat n := by
  rw [natCeil, Int.ceil_ofNat]
  rfl

theorem c1_ceil_200 : natCeil ((2000 : ℚ) * (1/10)) = 200 := by
  rw [show (2000 : ℚ) * (1/10) = ((200 : ℕ) : ℚ) by push_cast; norm_num]
  exact natCeil_natCast 200

theorem c1_ceil_600 : natCeil ((2000 : ℚ) * (3/10)) = 600 := by
  rw [show (2000 : ℚ) * (3/10) = ((600 : ℕ) : ℚ) by push_cast; norm_num]
  exact natCeil_natCast 600

theorem c1_ceil_20 : natCeil ((2000 : ℚ) * (1/100)) = 20 := by
  rw [show (2000 : ℚ) * (1/100) = ((20 : ℕ) : ℚ) by push_cast; norm_num]
  exact natCeil_natCast 20

theorem c1_ceil_10 : natCeil ((2000 : ℚ) * (1/200)) = 10 := by
  rw [show (2000 : ℚ) * (1/200) = ((10 : ℕ) : ℚ) by push_cast; norm_num]
  exact natCeil_natCast 10

theorem c1_cond_s0 : loopCond 1000 c1s0 := by
  constructor
  · show ((10 : ℕ) : ℚ) + ((10 : ℕ) : ℚ) ≤ 99 / 100 * ((1000 : ℕ) : ℚ)
    push_cast
    norm_num
  · show (10 : ℕ) ≠ 600
    decide

theorem c1_cond_s1 : loopCond 1000 c1s1 := by
  constructor
  · show ((20 : ℕ) : ℚ) + ((20 : ℕ) : ℚ) ≤ 99 / 100 * ((1000 : ℕ) : ℚ)
    push_cast
    norm_num
  · show (20 : ℕ) ≠ 10
    decide

theorem c1_cond_s2 : loopCond 1000 c1s2 := by
  constructor
  · show ((10 : ℕ) : ℚ) + ((10 : ℕ) : ℚ) ≤ 99 / 100 * ((1000 : ℕ) : ℚ)
    push_cast
    norm_num
  · show (10 : ℕ) ≠ 20
    decide

theorem c1_body_s0 : loopBody c1Specs c1Tile 1000 c1s0 = c1s1 := by
  simp only [loopBody, c1s0, c1s1, c1Tile, c1Density, c1Specs, specsInf, dmiDefault,
    u64sub, equivFloor, getMetaDataTileSize, String.reduceEq, if_false, if_true,
    reduceIte, c1_ceil_20, Nat.cast_ofNat]
  norm_num
  rw [natCeil_ofNat]
  norm_num

theorem c1_body_s1 : loopBody c1Specs c1Tile 1000 c1s1 = c1s2 := by
  simp only [loopBody, c1s1, c1s2, c1Tile, c1Density, c1Specs, specsInf, dmiDefault,
    u64sub, equivFloor, getMetaDataTileSize, String.reduceEq, if_false, if_true,
    reduceIte, c1_ceil_10, Nat.cast_ofNat]
  norm_num
  rw [natCeil_ofNat]
  norm_num

theorem c1_body_s2 : loopBody c1Specs c1Tile 1000 c1s2 = c1s1 := by
  simp only [loopBody, c1s2, c1s1, c1Tile, c1Density, c1Specs, specsInf, dmiDefault,
    u64sub, equivFloor, getMetaDataTileSize, String.reduceEq, if_false, if_true,
    reduceIte, c1_ceil_20, Nat.cast_ofNat]
  norm_num
  rw [natCeil_ofNat]
  norm_num

theorem c1_ceil_q200 : natCeil (200 : ℚ) = 200 := by rw [natCeil_ofNat]

theorem c1_ceil_q600 : natCeil (600 : ℚ) = 600 := by rw [natCeil_ofNat]

theorem c1_ceil_q10 : natCeil (10 : ℚ) = 10 := by rw [natCeil_ofNat]

theorem c1_eff : effectiveSize c1Specs = some 1000 := by
  rw [effectiveSize_mb_one _ rfl]
  rfl

theorem c1_u64_800 : u64sub 1000 200 = 800 := by
  unfold u64sub
  rw [if_pos (by norm_num)]

theorem c1_u64_399 : u64sub 1000 (600 + 1) = 399 := by
  unfold u64sub
  rw [if_pos (by norm_num)]

theorem c1_total : totalTileSize c1Specs [c1Tile] = 2200 := by
  simp only [totalTileSize, List.map_cons, List.map_nil, List.sum_cons, List.sum_nil,
    Nat.add_zero, getMetaDataTileSize, equivCeil,
    show c1Tile.size = 2000 from rfl,
    show c1Tile.metadata_format = "RLE" from rfl,
    show c1Tile.tile_density = c1Density from rfl,
    show c1Density.tileExpectedDensity 2000 = 1/10 from rfl,
    show c1Specs.metadata_word_bits = 1 from rfl,
    show c1Specs.word_bits = 1 from rfl,
    String.reduceEq, reduceIte, Nat.cast_ofNat, c1_ceil_200, Nat.cast_one,
    mul_one, div_one, c1_ceil_q200]

theorem c1_estimate_finished (fuel : ℕ) :
    (estimateTile c1Specs fuel (totalTileSize c1Specs [c1Tile]) c1Tile).finished
      = (loopRun c1Specs c1Tile 1000 fuel c1s0).1 := by
  have h2 : ((1:ℚ)/2) ≠ 0 := by norm_num
  rw [c1_total]
  simp only [estimateTile,
    show c1Tile.compressed = true from rfl,
    show c1Tile.tile_density = c1Density from rfl,
    show c1Density.user_defined_knob = false from rfl,
    c1_eff,
    show c1Tile.size = 2000 from rfl,
    show c1Tile.metadata_format = "RLE" from rfl,
    show c1Density.tileExpectedDensity 2000 = 1/10 from rfl,
    getMetaDataTileSize, equivCeil,
    show c1Specs.metadata_word_bits = 1 from rfl,
    show c1Specs.word_bits = 1 from rfl,
    String.reduceEq, reduceIte, Nat.cast_ofNat, Nat.cast_one, mul_one, div_one,
    c1_ceil_200, c1_ceil_q200]
  norm_num [c1_u64_800]
  simp only [show c1Density.tileConfidence 2000 800 = 1/2 from rfl,
    show c1Density.tileDensityByConfidenceCap 2000 (1/2) 800 = 3/10 from rfl,
    c1_ceil_600, getMetaDataTileSize,
    show c1Tile.metadata_format = "RLE" from rfl,
    String.reduceEq, reduceIte, Nat.cast_ofNat, c1_ceil_q600, mul_one, div_one,
    Nat.cast_one]
  rw [if_pos (by refine ⟨by norm_num, h2⟩)]
  simp only [c1_u64_399,
    show c1Density.tileConfidence 2000 399 = 1/2 from rfl,
    show c1Density.tileDensityByConfidenceCap 2000 (1/2) 399 = 1/200 from rfl,
    c1_ceil_10, getMetaDataTileSize,
    show c1Tile.metadata_format = "RLE" from rfl,
    String.reduceEq, reduceIte, Nat.cast_ofNat, c1_ceil_q10, mul_one, div_one,
    Nat.cast_one]
  rw [show (⟨600, 10, 10, 10, 1/200, 1/2⟩ : LoopState) = c1s0 from rfl]

theorem loopBody_preserves (specs : Specs) (t : DataMovementInfo) (alloc : ℕ)
    (s : LoopState) (h : s.updated + s.compressed ≤ alloc) :
    (loopBody specs t alloc s).updated + (loopBody specs t alloc s).compressed ≤ alloc := by
  simp only [loopBody]
  split_ifs with h1 h2 <;> simp_all

/-- C1 (amended): whenever the convergence loop of `ComputeAccesses` exits its
guard (within any amount of fuel), and the entry state satisfies the bound
`updated_metadata_equivalent + compressed ≤ allocated_share` asserted by the
code just before the loop (line 741), the accepted final state also satisfies
`metadata_equivalent + compressed_size ≤ allocated_share` (the assertion at
line 774). -/
theorem c1_loop_invariant (specs : Specs) (t : DataMovementInfo) (alloc fuel : ℕ)
    (s s' : LoopState) (h0 : s.updated + s.compressed ≤ alloc)
    (hrun : loopRun specs t alloc fuel s = (true, s')) :
    s'.updated + s'.compressed ≤ alloc := by
  induction fuel generalizing s with
  | zero =>
    unfold loopRun at hrun
    split_ifs at hrun
    · exact absurd (congrArg Prod.fst hrun) (by simp)
    · injection hrun with h1 h2
      rw [← h2]
      exact h0
  | succ n ih =>
    unfold loopRun at hrun
    split_ifs at hrun
    · exact ih _ (loopBody_preserves specs t alloc s h0) hrun
    · injection hrun with h1 h2
      rw [← h2]
      exact h0

/-- Witness for (amended) C1: at `c1WitState` the loop exits immediately and
the accepted state satisfies `updated + compressed ≤ 10`. -/
theorem c1_loop_invariant_witness : c1WitState.updated + c1WitState.compressed ≤ 10 :=
  c1_loop_invariant specsInf dmiDefault 10 0 c1WitState c1WitState (by decide)
    (by unfold loopRun
        rw [if_neg (fun h => h.2 rfl)])

theorem loopRun_cycle_not_finished (specs : Specs) (t : DataMovementInfo) (alloc : ℕ)
    (fuel : ℕ) (a b : LoopState)
    (ha : loopCond alloc a) (hb : loopCond alloc b)
    (hab : loopBody specs t alloc a = b) (hba : loopBody specs t alloc b = a) :
    (loopRun specs t alloc fuel a).1 = false ∧ (loopRun specs t alloc fuel b).1 = false := by
  induction fuel generalizing a b with
  | zero =>
    constructor <;> unfold loopRun
    · rw [if_pos ha]
    · rw [if_pos hb]
  | succ n ih =>
    constructor <;> unfold loopRun
    · rw [if_pos ha, hab]
      exact (ih b a hb ha hba hab).1
    · rw [if_pos hb, hba]
      exact (ih b a hb ha hba hab).2

theorem c1_loop_never_exits (fuel : ℕ) :
    (loopRun c1Specs c1Tile 1000 fuel c1s0).1 = false := by
  cases fuel with
  | zero =>
    unfold loopRun
    rw [if_pos c1_cond_s0]
  | succ n =>
    unfold loopRun
    rw [if_pos c1_cond_s0, c1_body_s0]
    exact (loopRun_cycle_not_finished c1Specs c1Tile 1000 n c1s1 c1s2 c1_cond_s1
      c1_cond_s2 c1_body_s1 c1_body_s2).1

/-- C1 counterexample: on the compressed tensor `c1Tile` with the
interface-conforming density model `c1Density` and finite effective size 1000,
the sparse-size convergence procedure of `ComputeAccesses` never terminates —
no amount of fuel makes the loop exit its guard (it oscillates between the
states `c1s1` and `c1s2` forever), so there is no bound on its number of
steps. -/
theorem c1_nontermination :
    ¬ ∃ fuel, (estimateTile c1Specs fuel (totalTileSize c1Specs [c1Tile]) c1Tile).finished
        = true := by
  rintro ⟨fuel, hf⟩
  rw [c1_estimate_finished fuel, c1_loop_never_exits fuel] at hf
  exact absurd hf (by simp)

/-- C2: with a specified level size (and `min_utilization` a fraction at most
1), `Evaluate` fails with a capacity-exceeded reason whenever the summed
utilized capacity exceeds `effective_size`, and with a minimum-utilization
reason whenever that sum is below `effective_size * min_utilization`; in both
cases `is_evaluated_` is left false. -/
theorem c2_postpass_validation (specs : Specs) (w : Workload) (kol : Collab) (fuel : ℕ)
    (tiles : List DataMovementInfo) (mask : List Bool) (cc : ℕ) (b : Bool)
    (st : LevelState) (eff : ℕ) (heff : effectiveSize specs = some eff)
    (hmu : specs.min_utilization ≤ 1) :
    (totalUtilizedCapacity specs fuel tiles > eff →
      ((evalFull specs w kol fuel tiles mask cc b st).last_status.success = false ∧
       FailReason.capacityExceeded ∈
         (evalFull specs w kol fuel tiles mask cc b st).last_status.fail_reason ∧
       (evalFull specs w kol fuel tiles mask cc b st).is_evaluated = false)) ∧
    ((totalUtilizedCapacity specs fuel tiles : ℚ) <
        (eff : ℚ) * specs.min_utilization →
      ((evalFull specs w kol fuel tiles mask cc b st).last_status.success = false ∧
       FailReason.minUtilization ∈
         (evalFull specs w kol fuel tiles mask cc b st).last_status.fail_reason ∧
       (evalFull specs w kol fuel tiles mask cc b st).is_evaluated = false)) := by
  constructor
  · intro h
    refine ⟨?_, ?_, ?_⟩ <;>
    · simp only [evalFull, heff]
      simp [h]
  · intro h
    have hle : totalUtilizedCapacity specs fuel tiles ≤ eff := by
      have h1 : (totalUtilizedCapacity specs fuel tiles : ℚ) < (eff : ℚ) := by
        refine lt_of_lt_of_le h ?_
        calc (eff : ℚ) * specs.min_utilization ≤ (eff : ℚ) * 1 :=
              mul_le_mul_of_nonneg_left hmu (by positivity)
          _ = (eff : ℚ) := mul_one _
      exact_mod_cast le_of_lt h1
    have hnotgt : ¬ (totalUtilizedCapacity specs fuel tiles > eff) := not_lt.mpr hle
    refine ⟨?_, ?_, ?_⟩ <;>
    · simp only [evalFull, heff]
      simp [h, hnotgt, hle]

theorem c2_tuc : totalUtilizedCapacity c2Specs 0 [c2Tile] = 70000 := by
  simp only [totalUtilizedCapacity, utilizedCapacityOf, List.map_cons, List.map_nil,
    List.sum_cons, List.sum_nil, Nat.add_zero, estimateTile,
    show c2Tile.compressed = false from rfl, Bool.false_eq_true, if_false, equivCeil,
    show c2Tile.metadata_format = "" from rfl, String.reduceEq, reduceIte,
    show c2Specs.metadata_word_bits = 0 from rfl, Nat.cast_zero, mul_zero, zero_div,
    natCeil_zero, show c2Tile.size = 70000 from rfl]

/-- Witness for C2 (the spec scenario): a 70000-element dense tile on a
65536-element level makes `Evaluate` fail with a capacity-exceeded reason and
leaves `is_evaluated_` false. -/
theorem c2_postpass_validation_witness :
    (evalFull c2Specs wRO kolPlain 0 [c2Tile] [true] 1 false
        levelStateDefault).last_status.success = false ∧
    FailReason.capacityExceeded ∈
      (evalFull c2Specs wRO kolPlain 0 [c2Tile] [true] 1 false
        levelStateDefault).last_status.fail_reason ∧
    (evalFull c2Specs wRO kolPlain 0 [c2Tile] [true] 1 false
        levelStateDefault).is_evaluated = false := by
  have heff : effectiveSize c2Specs = some 65536 := by
    rw [effectiveSize_mb_one _ rfl]
    rfl
  have h := (c2_postpass_validation c2Specs wRO kolPlain 0 [c2Tile] [true] 1 false
    levelStateDefault 65536 heff
    (by rw [show c2Specs.min_utilization = 0 from rfl]; norm_num)).1
  exact h (by rw [c2_tuc]; norm_num)

/-- C6: for every tensor, `ComputeAccesses` records
`utilized_capacity = compressed_tile_size + ceil(metadata_tile_size *
metadata_word_bits / word_bits)` and `utilized_instances` equal to the
descriptor's replication factor. -/
theorem c6_utilized_capacity (specs : Specs) (w : Workload) (kol : Collab) (fuel : ℕ)
    (tiles : List DataMovementInfo) (mask : List Bool) (cc : ℕ) (b : Bool)
    (st : LevelState) (i : ℕ) (hi : i < tiles.length) :
    ((evalFull specs w kol fuel tiles mask cc b st).per i).utilized_capacity
        = ((evalFull specs w kol fuel tiles mask cc b st).per i).compressed_tile_size +
          equivCeil specs ((evalFull specs w kol fuel tiles mask cc b st).per
            i).metadata_tile_size ∧
    ((evalFull specs w kol fuel tiles mask cc b st).per i).utilized_instances
        = (tiles.get ⟨i, hi⟩).replication_factor := by
  have hg : tiles.getD i dmiDefault = tiles.get ⟨i, hi⟩ :=
    List.getD_eq_get tiles dmiDefault hi
  constructor <;> simp only [evalFull, computeTensorStats, hg]

theorem c6_tuc : totalUtilizedCapacity c2Specs 0 [c6Tile] = 65536 := by
  simp only [totalUtilizedCapacity, utilizedCapacityOf, List.map_cons, List.map_nil,
    List.sum_cons, List.sum_nil, Nat.add_zero, estimateTile,
    show c6Tile.compressed = false from rfl, Bool.false_eq_true, if_false, equivCeil,
    show c6Tile.metadata_format = "" from rfl, String.reduceEq, reduceIte,
    show c2Specs.metadata_word_bits = 0 from rfl, Nat.cast_zero, mul_zero, zero_div,
    natCeil_zero, show c6Tile.size = 65536 from rfl]

theorem c6_success :
    (evalFull c2Specs wRO kolPlain 0 [c6Tile] [true] 100 false
        levelStateDefault).last_status.success = true := by
  have heff : effectiveSize c2Specs = some 65536 := by
    rw [effectiveSize_mb_one _ rfl]
    rfl
  have hq : ¬ ((65536 : ℚ) < 0) := by norm_num
  simp only [evalFull, heff, c6_tuc]
  simp [maxUtilizedInstances, show c6Tile.replication_factor = 1 from rfl,
    show c2Specs.min_utilization = 0 from rfl, show c2Specs.instances = 1 from rfl,
    hq]

theorem per_stats_getD (specs : Specs) (w : Workload) (kol : Collab) (fuel : ℕ)
    (tiles : List DataMovementInfo) (mask : List Bool) (cc : ℕ) (b : Bool)
    (st : LevelState) (i : ℕ) :
    ((evalFull specs w kol fuel tiles mask cc b st).per i).utilized_capacity
      = (estimateTile specs fuel (totalTileSize specs tiles)
            (tiles.getD i dmiDefault)).compressed
        + equivCeil specs (estimateTile specs fuel (totalTileSize specs tiles)
            (tiles.getD i dmiDefault)).metadata ∧
    ((evalFull specs w kol fuel tiles mask cc b st).per i).utilized_instances
      = (tiles.getD i dmiDefault).replication_factor := by
  constructor <;> simp only [evalFull, computeTensorStats]

theorem estimateTile_uncompressed (specs : Specs) (fuel total : ℕ)
    (t : DataMovementInfo) (hc : t.compressed = false) :
    estimateTile specs fuel total t =
      { confidence := 1, density := 1, compressed := t.size,
        metadata := if t.metadata_format = "bitmask" then t.size else 0,
        finished := true } := by
  simp only [estimateTile, hc, Bool.false_eq_true, if_false]

theorem c6_uc :
    ((evalFull c2Specs wRO kolPlain 0 [c6Tile] [true] 100 false
        levelStateDefault).per 0).utilized_capacity = 65536 := by
  have h := (per_stats_getD c2Specs wRO kolPlain 0 [c6Tile] [true] 100 false
    levelStateDefault 0).1
  rw [h, estimateTile_uncompressed _ _ _ _ rfl]
  rw [show [c6Tile].getD 0 dmiDefault = c6Tile from rfl]
  rw [show c6Tile.metadata_format = "" from rfl]
  rw [if_neg (by decide)]
  rw [equivCeil]
  rw [show c6Tile.size = 65536 from rfl]
  norm_num [natCeil_zero]

theorem c6_ui :
    ((evalFull c2Specs wRO kolPlain 0 [c6Tile] [true] 100 false
        levelStateDefault).per 0).utilized_instances = 1 := by
  simp only [evalFull, computeTensorStats, List.getD,
    show ([c6Tile].get? 0) = some c6Tile from rfl]
  simp [show c6Tile.replication_factor = 1 from rfl]

theorem c6_cap_utilization :
    capacityUtilization c2Specs 1
      (evalFull c2Specs wRO kolPlain 0 [c6Tile] [true] 100 false
        levelStateDefault) = 1 := by
  rw [capacityUtilization]
  rw [show List.range 1 = [0] from rfl, List.map_cons, List.map_nil, List.sum_cons, List.sum_nil]
  rw [c6_uc, c6_ui]
  rw [show levelSize c2Specs = ((65536 : ℕ) : ℚ) from rfl,
    show c2Specs.instances = 1 from rfl]
  push_cast
  norm_num

/-- Witness for C6 (the spec scenario): on a 65536-element level, one dense
uncompressed 65536-element tile evaluates successfully with utilized capacity
65536, one utilized instance, and a capacity utilization of 1.0. -/
theorem c6_utilized_capacity_witness :
    ((evalFull c2Specs wRO kolPlain 0 [c6Tile] [true] 100 false
        levelStateDefault).per 0).utilized_instances = 1 ∧
    (evalFull c2Specs wRO kolPlain 0 [c6Tile] [true] 100 false
        levelStateDefault).last_status.success = true ∧
    ((evalFull c2Specs wRO kolPlain 0 [c6Tile] [true] 100 false
        levelStateDefault).per 0).utilized_capacity = 65536 ∧
    capacityUtilization c2Specs 1
      (evalFull c2Specs wRO kolPlain 0 [c6Tile] [true] 100 false
        levelStateDefault) = 1 := by
  refine ⟨?_, c6_success, c6_uc, c6_cap_utilization⟩
  have h := (c6_utilized_capacity c2Specs wRO kolPlain 0 [c6Tile] [true] 100 false
    levelStateDefault 0 (by simp)).2
  rw [h]
  rfl

/-- C9 (code bug): on a tensor with zero total scalar accesses but a positive
utilized-instance count, `ComputeBufferEnergy` still executes
`energy / instance_accesses` (buffer.cpp line 1077), an IEEE division by zero
(modelled as `none`) — instead of short-circuiting `energy_per_access` to zero
as the spec requires.  The second conjunct shows the input really falls in the
`utilized_instances > 0` branch. -/
theorem c9_energy_per_access_divide_by_zero :
    ((evalFull specsInf wRO kolPlain 0 [c9Tile] [true] 1 false
        levelStateDefault).per 0).energy_per_access = none ∧
    ((evalFull specsInf wRO kolPlain 0 [c9Tile] [true] 1 false
        levelStateDefault).per 0).utilized_instances = 1 := by
  constructor <;>
  · simp only [evalFull, computeTensorStats,
      show [c9Tile].getD 0 dmiDefault = c9Tile from rfl,
      show c9Tile.reads = 0 from rfl, show c9Tile.updates = 0 from rfl,
      show c9Tile.fills = 0 from rfl, show c9Tile.replication_factor = 1 from rfl,
      Bool.not_false, Bool.true_or]
    try simp

theorem if_retain_idem {α : Type} (c : Prop) [Decidable c] (v x : α) :
    (if c then v else (if c then v else x)) = if c then v else x := by
  split_ifs <;> rfl

/-- C7: `Evaluate` is idempotent and deterministic — a second call with the
same tile descriptors, mask and compute-cycle count, on the level state left
by the first call, reproduces exactly the same level state (stats record,
`EvalStatus`, `is_evaluated_`, `addr_gen_bits`, subnest).  The hypotheses
restrict the statement to runs the C++ code completes: the line-816 assertion
holds and every sparse convergence loop exits within the given fuel. -/
theorem c7_evaluate_idempotent (specs : Specs) (w : Workload) (kol : Collab) (fuel : ℕ)
    (tiles : List DataMovementInfo) (mask : List Bool) (cc : ℕ) (b : Bool)
    (st : LevelState)
    (_hassert : assertsOk tiles = true)
    (_hfin : allEstimatesFinished specs fuel tiles = true) :
    evalFull specs w kol fuel tiles mask cc b
      (evalFull specs w kol fuel tiles mask cc b st)
      = evalFull specs w kol fuel tiles mask cc b st := by
  simp only [evalFull, LevelState.mk.injEq, if_retain_idem, eq_self_iff_true, true_and,
    and_true]
  funext i
  simp only [computeTensorStats, TensorStats.mk.injEq, if_retain_idem]

/-- Witness for C7: the successful C6 scenario evaluated twice yields the
same level state, with both hypotheses discharged by computation. -/
theorem c7_evaluate_idempotent_witness :
    assertsOk [c6Tile] = true ∧
    allEstimatesFinished c2Specs 0 [c6Tile] = true ∧
    evalFull c2Specs wRO kolPlain 0 [c6Tile] [true] 100 false
      (evalFull c2Specs wRO kolPlain 0 [c6Tile] [true] 100 false levelStateDefault)
      = evalFull c2Specs wRO kolPlain 0 [c6Tile] [true] 100 false levelStateDefault :=
  ⟨by rfl, by rfl,
    c7_evaluate_idempotent c2Specs wRO kolPlain 0 [c6Tile] [true] 100 false
      levelStateDefault (by rfl) (by rfl)⟩

theorem evalFull_cap_fail_of (specs : Specs) (w : Workload) (kol : Collab) (fuel : ℕ)
    (tiles : List DataMovementInfo) (mask : List Bool) (cc : ℕ) (b : Bool)
    (st : LevelState) (eff : ℕ) (heff : effectiveSize specs = some eff)
    (h : totalUtilizedCapacity specs fuel tiles > eff) :
    (evalFull specs w kol fuel tiles mask cc b st).last_status.success = false ∧
    FailReason.capacityExceeded ∈
      (evalFull specs w kol fuel tiles mask cc b st).last_status.fail_reason := by
  constructor <;>
    simp only [evalFull, heff] <;>
    simp [h]

theorem evalFull_success_of (specs : Specs) (w : Workload) (kol : Collab) (fuel : ℕ)
    (tiles : List DataMovementInfo) (mask : List Bool) (cc : ℕ) (b : Bool)
    (st : LevelState) (eff : ℕ) (heff : effectiveSize specs = some eff)
    (h1 : totalUtilizedCapacity specs fuel tiles ≤ eff)
    (h2 : ¬ ((totalUtilizedCapacity specs fuel tiles : ℚ) <
        (eff : ℚ) * specs.min_utilization))
    (h3 : maxUtilizedInstances tiles ≤ specs.instances) :
    (evalFull specs w kol fuel tiles mask cc b st).last_status.success = true := by
  simp only [evalFull, heff]
  simp [not_lt.mpr h1, h2, not_lt.mpr h3]

theorem natCeil_mul_density_le (ws : ℕ) (d : ℚ) (h1 : d ≤ 1) :
    natCeil ((ws : ℚ) * d) ≤ ws := by
  apply natCeil_le_of_le
  calc (ws : ℚ) * d ≤ (ws : ℚ) * 1 := mul_le_mul_of_nonneg_left h1 (by positivity)
    _ = (ws : ℚ) := mul_one _

theorem uc_ge_size_of_uncompressed (specs : Specs) (fuel total : ℕ)
    (t : DataMovementInfo) (hc : t.compressed = false) :
    t.size ≤ utilizedCapacityOf specs fuel total t := by
  simp only [utilizedCapacityOf, estimateTile_uncompressed specs fuel total t hc]
  exact Nat.le_add_right _ _

theorem requiredCapacity_le_sum (specs : Specs) (fuel total : ℕ)
    (pres : List PreTensor) (tiles : List DataMovementInfo)
    (hlen : pres.length ≤ tiles.length)
    (hpt : ∀ p ∈ pres.zip tiles, p.1.masked = true →
      (p.1.expectedDensity p.1.workingSetSize ≤ 1 ∧
       p.1.workingSetSize ≤ p.2.size ∧ p.2.compressed = false)) :
    requiredCapacity pres ≤ (tiles.map (utilizedCapacityOf specs fuel total)).sum := by
  induction pres generalizing tiles with
  | nil => simp [requiredCapacity]
  | cons p ps ih =>
    cases tiles with
    | nil => simp at hlen
    | cons t ts =>
      have hrest := ih ts (by simpa using hlen)
        (fun q hq hm => hpt q (by simp [List.zip_cons_cons, hq]) hm)
      have hhead : (if p.masked then
          natCeil ((p.workingSetSize : ℚ) * p.expectedDensity p.workingSetSize)
          else 0) ≤ utilizedCapacityOf specs fuel total t := by
        by_cases hm : p.masked
        · obtain ⟨h1, h2, h3⟩ := hpt (p, t) (by simp [List.zip_cons_cons]) (by simpa using hm)
          rw [if_pos hm]
          exact le_trans (le_trans (natCeil_mul_density_le _ _ h1) h2)
            (uc_ge_size_of_uncompressed specs fuel total t h3)
        · rw [if_neg hm]
          exact Nat.zero_le _
      simp only [requiredCapacity, List.map_cons, List.sum_cons] at hrest hhead ⊢
      omega

theorem availableCapacity_ge (specs : Specs) (kol : Collab) (eff : ℕ)
    (hinst : 1 ≤ specs.instances) :
    eff ≤ availableCapacity specs kol eff := by
  rw [availableCapacity]
  split_ifs
  · exact Nat.le_mul_of_pos_right eff hinst
  · exact le_refl eff

/-- C8 (amended): if `PreEvaluationCheck` fails with a capacity-exceeded
reason, then `Evaluate` on a tiling whose masked tensors are uncompressed and
have tile sizes at least their working-set sizes (with expected densities at
most 1, and at least one hardware instance) also fails with a
capacity-exceeded reason.  The restriction to a capacity-exceeded pre-check
failure, and to uncompressed tensors, is forced by the counterexample. -/
theorem c8_capacity_monotonicity (specs : Specs) (w : Workload) (kol : Collab)
    (fuel : ℕ) (pres : List PreTensor) (tiles : List DataMovementInfo)
    (mask : List Bool) (cc : ℕ) (b : Bool) (st : LevelState)
    (hinst : 1 ≤ specs.instances)
    (hlen : pres.length ≤ tiles.length)
    (hpt : ∀ p ∈ pres.zip tiles, p.1.masked = true →
      (p.1.expectedDensity p.1.workingSetSize ≤ 1 ∧
       p.1.workingSetSize ≤ p.2.size ∧ p.2.compressed = false))
    (hfail : FailReason.capacityExceeded ∈
      (preEvaluationCheck specs kol pres).fail_reason) :
    (evalFull specs w kol fuel tiles mask cc b st).last_status.success = false ∧
    FailReason.capacityExceeded ∈
      (evalFull specs w kol fuel tiles mask cc b st).last_status.fail_reason := by
  unfold preEvaluationCheck at hfail
  cases heff : effectiveSize specs with
  | none =>
    rw [heff] at hfail
    simp at hfail
  | some eff =>
    rw [heff] at hfail
    dsimp only at hfail
    split_ifs at hfail with hgt hmu
    · have hge : requiredCapacity pres ≤ totalUtilizedCapacity specs fuel tiles :=
        requiredCapacity_le_sum specs fuel (totalTileSize specs tiles) pres tiles hlen hpt
      have htuc : totalUtilizedCapacity specs fuel tiles > eff :=
        lt_of_le_of_lt (availableCapacity_ge specs kol eff hinst) (lt_of_lt_of_le hgt hge)
      exact evalFull_cap_fail_of specs w kol fuel tiles mask cc b st eff heff htuc
    · simp at hfail
    · simp at hfail

theorem c8_precheck_fails :
    (preEvaluationCheck c8Specs kolPlain c8Pre).success = false := by
  have heff : effectiveSize c8Specs = some 100 := by
    rw [effectiveSize_mb_one _ rfl]
    rfl
  have hreq : requiredCapacity c8Pre = 50 := by
    simp only [requiredCapacity, c8Pre, List.map_cons, List.map_nil, List.sum_cons,
      List.sum_nil, if_true, Nat.add_zero, mul_one]
    exact natCeil_natCast 50
  unfold preEvaluationCheck
  rw [heff]
  dsimp only
  rw [hreq, availableCapacity, show kolPlain.multicastReadSupported = false from rfl]
  rw [show c8Specs.min_utilization = 1 from rfl]
  simp only [Bool.false_eq_true, if_false]
  rw [if_neg (by norm_num), if_pos (by push_cast; norm_num)]

theorem c8_tuc : totalUtilizedCapacity c8Specs 0 [c8Tile] = 100 := by
  simp only [totalUtilizedCapacity, utilizedCapacityOf, List.map_cons, List.map_nil,
    List.sum_cons, List.sum_nil, Nat.add_zero, estimateTile,
    show c8Tile.compressed = false from rfl, Bool.false_eq_true, if_false, equivCeil,
    show c8Tile.metadata_format = "" from rfl, String.reduceEq, reduceIte,
    show c8Specs.metadata_word_bits = 0 from rfl, Nat.cast_zero, mul_zero, zero_div,
    natCeil_zero, show c8Tile.size = 100 from rfl]

theorem c8_eval_success :
    (evalFull c8Specs wRO kolPlain 0 [c8Tile] [true] 1 false
        levelStateDefault).last_status.success = true := by
  have heff : effectiveSize c8Specs = some 100 := by
    rw [effectiveSize_mb_one _ rfl]
    rfl
  refine evalFull_success_of c8Specs wRO kolPlain 0 [c8Tile] [true] 1 false
    levelStateDefault 100 heff ?_ ?_ ?_
  · rw [c8_tuc]
  · rw [c8_tuc, show c8Specs.min_utilization = 1 from rfl]
    push_cast
    norm_num
  · simp [maxUtilizedInstances, show c8Tile.replication_factor = 1 from rfl,
      show c8Specs.instances = 1 from rfl]

/-- C8 counterexample: on a level of effective size 100 with minimum
utilization 1, `PreEvaluationCheck` fails (with a minimum-utilization reason)
for a masked working set of 50 dense elements, yet `Evaluate` on a tiling with
the larger tile size 100 succeeds — so a pre-check failure does not imply an
`Evaluate` failure, let alone a capacity-exceeded one. -/
theorem c8_counterexample :
    (preEvaluationCheck c8Specs kolPlain c8Pre).success = false ∧
    50 ≤ c8Tile.size ∧
    (evalFull c8Specs wRO kolPlain 0 [c8Tile] [true] 1 false
        levelStateDefault).last_status.success = true :=
  ⟨c8_precheck_fails, by rw [show c8Tile.size = 100 from rfl]; norm_num, c8_eval_success⟩

/-- Witness for (amended) C8: the capacity-exceeded pre-check failure at
working-set 20 on capacity 10 carries over to an `Evaluate` failure with a
capacity-exceeded reason on the 20-element tile. -/
theorem c8_capacity_monotonicity_witness :
    (evalFull c8bSpecs wRO kolPlain 0 [c8bTile] [true] 1 false
        levelStateDefault).last_status.success = false ∧
    FailReason.capacityExceeded ∈
      (evalFull c8bSpecs wRO kolPlain 0 [c8bTile] [true] 1 false
        levelStateDefault).last_status.fail_reason := by
  have heff : effectiveSize c8bSpecs = some 10 := by
    rw [effectiveSize_mb_one _ rfl]
    rfl
  have hreq : requiredCapacity c8bPre = 20 := by
    simp only [requiredCapacity, c8bPre, List.map_cons, List.map_nil, List.sum_cons,
      List.sum_nil, if_true, Nat.add_zero, mul_one]
    exact natCeil_natCast 20
  refine c8_capacity_monotonicity c8bSpecs wRO kolPlain 0 c8bPre [c8bTile] [true] 1
    false levelStateDefault ?_ ?_ ?_ ?_
  · rw [show c8bSpecs.instances = 1 from rfl]
  · simp [c8bPre]
  · rintro p hp hm
    simp only [c8bPre, List.zip_cons_cons, List.zip_nil_left, List.mem_singleton] at hp
    subst hp
    refine ⟨by norm_num, ?_, rfl⟩
    rw [show c8bTile.size = 20 from rfl]
  · unfold preEvaluationCheck
    rw [heff]
    dsimp only
    rw [hreq, availableCapacity, show kolPlain.multicastReadSupported = false from rfl]
    simp only [Bool.false_eq_true, if_false]
    rw [if_pos (by norm_num)]
    simp
